import Mathlib

/-!
Shallow embedding of the streaming core of the DEPI IoT pipeline:
the in-memory broker (`src/streaming/kafka_broker.py`), the Kafka-style
streaming consumer (`src/streaming/kafka_consumer.py`), and the alert rule
table shared with `src/streaming/streaming_consumer.py`.

Modelling conventions:
- Python dict payloads become association lists over `String` keys with
  structured values (`Val`); lookup is first-match, as dict keys are unique.
- Python floats become rationals (`ℚ`); every threshold and every value in
  the claims is exactly representable.
- Database writes and other environment effects are driven by explicit
  success oracles (`Bool` / `List Bool`), and each consumer operation
  returns the list of observable events (sink calls, log lines) it emits.
- Identity fields (`sensor_id`, `timestamp`, `status`) are modelled as
  strings, following the wire shape (ISO-8601 string, string id).
- The broker's non-reentrant `threading.Lock` is modelled by passing the
  lock-held flag to internal helpers: acquiring a lock that the same thread
  already holds blocks forever, which the embedding renders as `none`.
-/

/-- Structured JSON-like value carried in a message payload. -/
inductive Val where
  | num (q : ℚ)
  | str (s : String)
  | dict (m : List (String × Val))

/-- A Python dict payload: an association list with first-match lookup. -/
abbrev Msg := List (String × Val)

/-- Dictionary lookup: `m.get(k)` returning `None` when the key is absent. -/
def getVal (m : Msg) (k : String) : Option Val :=
  (m.find? (fun p => p.1 = k)).map (fun p => p.2)

/-- Dictionary lookup with default: `m.get(k, d)`. -/
def getValD (m : Msg) (k : String) (d : Val) : Val :=
  (getVal m k).getD d

/-- String-typed field lookup: identity fields are strings on the wire. -/
def getStr (m : Msg) (k : String) : Option String :=
  match getVal m k with
  | some (Val.str s) => some s
  | _ => none

/-- String-typed field lookup with default: `m.get(k, d)` for string fields. -/
def getStrD (m : Msg) (k d : String) : String :=
  (getStr m k).getD d

/-- Dictionary assignment `m[k] = v`: replaces the binding of `k` in place
when present (dict keys are unique), otherwise appends a new binding. -/
def setKey (m : Msg) (k : String) (v : Val) : Msg :=
  if m.any (fun p => p.1 = k) then
    m.map (fun p => if p.1 = k then (k, v) else p)
  else
    m ++ [(k, v)]

/-- An alert rule, from `AlertRule.__init__` (kafka_consumer.py lines 59-67). -/
structure AlertRule where
  name : String
  metric : String
  condition : String
  threshold : ℚ
  severity : String
deriving DecidableEq

/-- AlertRule.check (kafka_consumer.py lines 69-79): compare the value to the
threshold according to the condition string; unknown conditions yield False. -/
def AlertRule.check (r : AlertRule) (value : ℚ) : Bool :=
  if r.condition = ">" then decide (value > r.threshold)
  else if r.condition = "<" then decide (value < r.threshold)
  else if r.condition = ">=" then decide (value ≥ r.threshold)
  else if r.condition = "<=" then decide (value ≤ r.threshold)
  else false

/-- ALERT_RULES (kafka_consumer.py lines 82-90). -/
def ALERT_RULES : List AlertRule :=
  [⟨"HIGH_TEMP", "temperature", ">", 40, "CRITICAL"⟩,
   ⟨"LOW_TEMP", "temperature", "<", 0, "WARNING"⟩,
   ⟨"LOW_HUMIDITY", "humidity", "<", 20, "WARNING"⟩,
   ⟨"HIGH_HUMIDITY", "humidity", ">", 90, "WARNING"⟩,
   ⟨"HIGH_WIND", "wind_speed", ">", 50, "WARNING"⟩,
   ⟨"LOW_PRESSURE", "pressure", "<", 980, "WARNING"⟩,
   ⟨"HIGH_PRESSURE", "pressure", ">", 1040, "WARNING"⟩]

namespace streaming_consumer

/-- ALERT_RULES of the file-watching consumer (streaming_consumer.py lines
77-85); its `AlertRule` class is field-for-field the one embedded above. -/
def ALERT_RULES : List AlertRule :=
  [⟨"HIGH_TEMP", "temperature", ">", 40, "CRITICAL"⟩,
   ⟨"LOW_TEMP", "temperature", "<", 0, "WARNING"⟩,
   ⟨"LOW_HUMIDITY", "humidity", "<", 20, "WARNING"⟩,
   ⟨"HIGH_HUMIDITY", "humidity", ">", 90, "WARNING"⟩,
   ⟨"HIGH_WIND", "wind_speed", ">", 50, "WARNING"⟩,
   ⟨"LOW_PRESSURE", "pressure", "<", 980, "WARNING"⟩,
   ⟨"HIGH_PRESSURE", "pressure", ">", 1040, "WARNING"⟩]

end streaming_consumer

/-- The fixed default rule table exactly as the specification's section 4.3
prints it, to be compared with the tables embedded from the two consumers. -/
def specRuleTable : List AlertRule :=
  [⟨"HIGH_TEMP", "temperature", ">", 40, "CRITICAL"⟩,
   ⟨"LOW_TEMP", "temperature", "<", 0, "WARNING"⟩,
   ⟨"LOW_HUMIDITY", "humidity", "<", 20, "WARNING"⟩,
   ⟨"HIGH_HUMIDITY", "humidity", ">", 90, "WARNING"⟩,
   ⟨"HIGH_WIND", "wind_speed", ">", 50, "WARNING"⟩,
   ⟨"LOW_PRESSURE", "pressure", "<", 980, "WARNING"⟩,
   ⟨"HIGH_PRESSURE", "pressure", ">", 1040, "WARNING"⟩]

/-- Comparator semantics exactly as the specification's section 4.3 words
them: strict for greater/less, inclusive for the -or-equal forms. -/
def specCheck (condition : String) (value threshold : ℚ) : Bool :=
  if condition = ">" then decide (value > threshold)
  else if condition = "<" then decide (value < threshold)
  else if condition = ">=" then decide (value ≥ threshold)
  else if condition = "<=" then decide (value ≤ threshold)
  else false

/-- Specification-side trigger test for one rule against a reading: the rule
fires exactly when its metric is present with a numeric value for which the
comparator holds. -/
def specFires (values : Msg) (r : AlertRule) : Bool :=
  match getVal values r.metric with
  | some (Val.num q) => specCheck r.condition q r.threshold
  | _ => false

/-!
Streaming consumer (`src/streaming/kafka_consumer.py`, class
`KafkaStreamingConsumer`). Database sessions are external effects: each
alert insert and the reading insert are driven by success oracles, and the
observable behaviour of a call is its event list.
-/

/-- Observable events emitted while processing one message: persistence-sink
calls, their failures, the status log line, and the catch-all error log of
`process_message`'s outer try/except. -/
inductive Event where
  | alertAttempt (sensor_id alert_type severity metric_name : String)
      (metric_value threshold : ℚ) (timestamp : String)
  | alertDbError (alert_type : String)
  | readingAttempt (sensor_id : String)
  | readingSaved
  | readingDbError
  | statsLog
  | processError
deriving DecidableEq

/-- Mutable state of `KafkaStreamingConsumer` (kafka_consumer.py lines
102-117): topic name, rule table and the three counters. -/
structure KafkaStreamingConsumer where
  topic : String
  alert_rules : List AlertRule
  processed_count : Nat
  alert_count : Nat
  readings_saved : Nat
deriving DecidableEq

/-- KafkaStreamingConsumer.__init__ (kafka_consumer.py lines 102-117):
wires the fixed rule table and zeroes the counters. -/
def KafkaStreamingConsumer.init (topic : String) : KafkaStreamingConsumer :=
  ⟨topic, ALERT_RULES, 0, 0, 0⟩

/-- Envelope-shape normalization (kafka_consumer.py lines 138-141): use the
nested value sub-map when present and dict-shaped, else the whole message. -/
def extractValues (message : Msg) : Msg :=
  match getVal message "value" with
  | some (Val.dict values) => values
  | _ => message

/-- KafkaStreamingConsumer.create_alert (kafka_consumer.py lines 297-346):
always emits the sink call (the alert attempt); when the database insert
fails (`ok = false`) the exception is caught inside `create_alert` itself
and only an error log is added. -/
def create_alert (ok : Bool) (sensor_id alert_type severity metric_name : String)
    (metric_value threshold : ℚ) (timestamp : String) : List Event :=
  Event.alertAttempt sensor_id alert_type severity metric_name metric_value threshold timestamp ::
    (if ok then [] else [Event.alertDbError alert_type])

/-- Result of the rule loop of `process_message` (kafka_consumer.py lines
144-161): events emitted, names of triggered rules in evaluation order, how
many alerts fired, and whether a comparison raised (a non-numeric metric
value compared against a float threshold raises TypeError in Python, which
propagates to the outer try/except of `process_message`). -/
structure RuleLoopResult where
  events : List Event
  triggered : List String
  alerts : Nat
  errored : Bool
deriving DecidableEq

/-- The rule loop of `process_message` (kafka_consumer.py lines 144-161):
for each rule whose metric key is present, check the value; on a trigger,
call `create_alert` (consuming one alert-database oracle) and record the
rule name. A present but non-numeric value under a comparing condition
raises, ending the loop with the work done so far kept. -/
def runRules (sensor_id timestamp : String) (values : Msg) :
    List AlertRule → List Bool → RuleLoopResult
  | [], _ => ⟨[], [], 0, false⟩
  | r :: rulesRest, ao =>
    match getVal values r.metric with
    | none => runRules sensor_id timestamp values rulesRest ao
    | some (Val.num q) =>
      if r.check q then
        let evs := create_alert (ao.headD true) sensor_id r.name r.severity r.metric
          q r.threshold timestamp
        let rest := runRules sensor_id timestamp values rulesRest ao.tail
        ⟨evs ++ rest.events, r.name :: rest.triggered, rest.alerts + 1, rest.errored⟩
      else runRules sensor_id timestamp values rulesRest ao
    | some _ =>
      if r.condition = ">" ∨ r.condition = "<" ∨ r.condition = ">=" ∨ r.condition = "<=" then
        ⟨[], [], 0, true⟩
      else runRules sensor_id timestamp values rulesRest ao

/-- Fact-table row fields filled by `save_reading_to_database`
(kafka_consumer.py lines 262-283); dimension surrogate keys live in the
external database and are out of the model. -/
structure FactWeatherReading where
  sensor_id : String
  temperature : Val
  humidity : Val
  pressure : Val
  wind_speed : Val
  wind_direction : Val
  rainfall : Val
  is_anomaly : Bool

/-- Metric columns of a fact row, in table order. -/
def metricPart (f : FactWeatherReading) : List Val :=
  [f.temperature, f.humidity, f.pressure, f.wind_speed, f.wind_direction, f.rainfall]

/-- Metric columns as `save_reading_to_database` computes them from a values
dict (kafka_consumer.py lines 271-276): `values.get` with the defaults of
the source. -/
def metricsFromValues (values : Msg) : List Val :=
  [getValD values "temperature" (Val.num 0),
   getValD values "humidity" (Val.num 0),
   getValD values "pressure" (Val.num 0),
   getValD values "wind_speed" (Val.num 0),
   getValD values "wind_direction" (Val.str "N"),
   getValD values "rainfall" (Val.num 0)]

/-- The fact row `save_reading_to_database` builds from a message
(kafka_consumer.py lines 189, 251, 262-283): metric values come only from
`message.get('value', \x7b\x7d)`, so a missing `value` key yields the
defaults; a `value` key bound to a non-dict makes `values.get` raise
(`none`: the insert is skipped and the error logged). -/
def factOf (message : Msg) : Option FactWeatherReading :=
  let sensor_id := getStrD message "sensor_id" "unknown"
  let status_code := getStrD message "status" "OK"
  match getVal message "value" with
  | some (Val.dict values) =>
    some ⟨sensor_id,
      getValD values "temperature" (Val.num 0),
      getValD values "humidity" (Val.num 0),
      getValD values "pressure" (Val.num 0),
      getValD values "wind_speed" (Val.num 0),
      getValD values "wind_direction" (Val.str "N"),
      getValD values "rainfall" (Val.num 0),
      status_code ≠ "OK"⟩
  | none =>
    some ⟨sensor_id,
      Val.num 0, Val.num 0, Val.num 0, Val.num 0, Val.str "N", Val.num 0,
      status_code ≠ "OK"⟩
  | some _ => none

/-- KafkaStreamingConsumer.save_reading_to_database (kafka_consumer.py lines
178-294): the call itself (the reading attempt) always happens; the insert
succeeds only when the fact row is buildable and the database oracle allows
it, and any failure is caught inside the function and logged. -/
def save_reading_to_database (ro : Bool) (message : Msg)
    (st : KafkaStreamingConsumer) : KafkaStreamingConsumer × List Event :=
  let sensor_id := getStrD message "sensor_id" "unknown"
  match factOf message, ro with
  | some _, true =>
    ({st with readings_saved := st.readings_saved + 1},
     [Event.readingAttempt sensor_id, Event.readingSaved])
  | _, _ => (st, [Event.readingAttempt sensor_id, Event.readingDbError])

/-- KafkaStreamingConsumer.process_message (kafka_consumer.py lines
124-176): bump the processed counter, default the identity fields, extract
the values map, run the rule loop, then attempt the reading save and the
periodic status log; a TypeError escaping the rule loop is caught by the
outer try/except (the work already done is kept, and the reading save and
status log are skipped). -/
def process_message (ao : List Bool) (ro : Bool) (now : String) (message : Msg)
    (st : KafkaStreamingConsumer) : KafkaStreamingConsumer × List Event :=
  let st1 := {st with processed_count := st.processed_count + 1}
  let sensor_id := getStrD message "sensor_id" "unknown"
  let timestamp := getStrD message "timestamp" now
  let values := extractValues message
  let res := runRules sensor_id timestamp values st1.alert_rules ao
  let st2 := {st1 with alert_count := st1.alert_count + res.alerts}
  if res.errored then
    (st2, res.events ++ [Event.processError])
  else
    let saved := save_reading_to_database ro message st2
    if res.triggered ≠ [] ∨ saved.1.processed_count % 50 = 0 then
      (saved.1, res.events ++ saved.2 ++ [Event.statsLog])
    else
      (saved.1, res.events ++ saved.2)

/-!
In-memory broker (`src/streaming/kafka_broker.py`, class `KafkaBroker`).
`self.lock` is a non-reentrant `threading.Lock`; each public method is
entered with the lock free, and internal helpers receive the lock-held flag
of their caller. A second acquire by the thread that already holds the lock
blocks forever, rendered as `none`.
-/

/-- A topic's bounded queue: `queue.Queue(maxsize=1000)` and its pending
messages (kafka_broker.py line 16). -/
structure TopicQueue where
  maxsize : Nat
  items : List Val

/-- Broker registries (kafka_broker.py lines 15-19): the topic map and, per
topic, the number of registered subscriber callbacks (callbacks themselves
are opaque). -/
structure KafkaBroker where
  topics : List (String × TopicQueue)
  subscribers : List (String × Nat)

/-- Membership test `topic_name in self.topics` (does not insert, even on a
defaultdict). -/
def KafkaBroker.hasTopic (b : KafkaBroker) (topic_name : String) : Bool :=
  b.topics.any (fun p => p.1 = topic_name)

/-- Defaultdict read `self.topics[topic_name]` after the key is known to be
present (absent keys are handled at each call site). -/
def KafkaBroker.getQueue (b : KafkaBroker) (topic_name : String) : TopicQueue :=
  ((b.topics.find? (fun p => p.1 = topic_name)).map (fun p => p.2)).getD ⟨1000, []⟩

/-- Store back a topic's queue under its name. -/
def KafkaBroker.setQueue (b : KafkaBroker) (topic_name : String) (q : TopicQueue) :
    KafkaBroker :=
  if b.topics.any (fun p => p.1 = topic_name) then
    {b with topics := b.topics.map (fun p => if p.1 = topic_name then (topic_name, q) else p)}
  else
    {b with topics := b.topics ++ [(topic_name, q)]}

/-- Overwrite a subscriber-registry entry (`self.subscribers[name] = []`). -/
def KafkaBroker.setSubscribers (b : KafkaBroker) (topic_name : String) (n : Nat) :
    KafkaBroker :=
  if b.subscribers.any (fun p => p.1 = topic_name) then
    {b with subscribers :=
      b.subscribers.map (fun p => if p.1 = topic_name then (topic_name, n) else p)}
  else
    {b with subscribers := b.subscribers ++ [(topic_name, n)]}

/-- KafkaBroker.create_topic (kafka_broker.py lines 21-27): `with self.lock`
around a guarded insert of a fresh `Queue(maxsize=1000)` and an empty
subscriber list. If the calling thread already holds the non-reentrant
broker lock, the acquire blocks forever (`none`). -/
def KafkaBroker.create_topic (b : KafkaBroker) (lock_held : Bool) (topic_name : String) :
    Option KafkaBroker :=
  if lock_held then none
  else some (
    if b.hasTopic topic_name then b
    else ((b.setQueue topic_name ⟨1000, []⟩).setSubscribers topic_name 0))

/-- KafkaBroker.publish (kafka_broker.py lines 29-44), entered with the lock
free and holding it for the whole body: ensure the topic exists (calling
`create_topic`, which re-acquires the held lock and therefore deadlocks when
the topic is absent), stamp `kafka_timestamp` into a dict-shaped message,
then try the bounded put with a one-second timeout — still-full after the
wait means `queue.Full` is caught and False returned. The possibly mutated
caller message is part of the result. -/
def KafkaBroker.publish (b : KafkaBroker) (topic_name : String) (message : Val)
    (now : String) : Option (KafkaBroker × Val × Bool) := do
  let b ← if b.hasTopic topic_name then some b else b.create_topic true topic_name
  let message := match message with
    | Val.dict m => Val.dict (setKey m "kafka_timestamp" (Val.str now))
    | v => v
  let q := b.getQueue topic_name
  if q.items.length < q.maxsize then
    some (b.setQueue topic_name ⟨q.maxsize, q.items ++ [message]⟩, message, true)
  else
    some (b, message, false)

/-- KafkaBroker.consume (kafka_broker.py lines 53-58): no lock is taken; the
defaultdict access `self.topics[topic_name]` inserts a fresh queue when the
topic is absent (without touching the subscriber registry), and the blocking
`get` returns `None` on an empty queue after its timeout (`queue.Empty`
caught). -/
def KafkaBroker.consume (b : KafkaBroker) (topic_name : String) :
    KafkaBroker × Option Val :=
  let b := if b.hasTopic topic_name then b
    else {b with topics := b.topics ++ [(topic_name, ⟨1000, []⟩)]}
  let q := b.getQueue topic_name
  match q.items with
  | [] => (b, none)
  | m :: rest => (b.setQueue topic_name ⟨q.maxsize, rest⟩, some m)

/-- KafkaBroker.subscribe (kafka_broker.py lines 46-51), entered with the
lock free: ensure the topic exists (same nested-lock deadlock as publish
when it is absent), then append the callback. -/
def KafkaBroker.subscribe (b : KafkaBroker) (topic_name : String) :
    Option KafkaBroker := do
  let b ← if b.hasTopic topic_name then some b else b.create_topic true topic_name
  let n := ((b.subscribers.find? (fun p => p.1 = topic_name)).map (fun p => p.2)).getD 0
  some (b.setSubscribers topic_name (n + 1))

/-- A broker with no topics and no subscribers, as built by
`KafkaBroker.__init__`. -/
def emptyBroker : KafkaBroker := ⟨[], []⟩

/-!
Lock-discipline traces for the broker methods: the atomic operations each
method body performs, paired with whether the broker mutex is held at that
point, transcribed line by line from kafka_broker.py.
-/

/-- Kinds of atomic operations a broker method performs. -/
inductive BrokerOp where
  | registryCheck
  | registryWrite
  | stampTimestamp
  | queuePut
  | queueGet
  | callbackAppend
deriving DecidableEq

/-- Operations of `publish` (kafka_broker.py lines 29-44): the whole body,
including the bounded blocking `put` with its one-second timeout, runs
inside `with self.lock`. -/
def publishOps : List (BrokerOp × Bool) :=
  [(BrokerOp.registryCheck, true),
   (BrokerOp.stampTimestamp, true),
   (BrokerOp.queuePut, true)]

/-- Operations of `consume` (kafka_broker.py lines 53-58): no broker lock
is taken anywhere in the body. The defaultdict access
`self.topics[topic_name]` first checks the registry and, on an absent
topic, inserts a fresh queue into it — an unlocked registry write — before
the blocking `get` runs, also without the lock. -/
def consumeOps : List (BrokerOp × Bool) :=
  [(BrokerOp.registryCheck, false),
   (BrokerOp.registryWrite, false),
   (BrokerOp.queueGet, false)]

/-- Operations of `create_topic` (kafka_broker.py lines 21-27): check and
registry insert under the lock. -/
def create_topicOps : List (BrokerOp × Bool) :=
  [(BrokerOp.registryCheck, true),
   (BrokerOp.registryWrite, true)]

/-- Operations of `subscribe` (kafka_broker.py lines 46-51): check and
callback append under the lock. -/
def subscribeOps : List (BrokerOp × Bool) :=
  [(BrokerOp.registryCheck, true),
   (BrokerOp.callbackAppend, true)]

/-- Does this operation mutate the topic/subscriber registries? -/
def isRegistryMutation : BrokerOp → Bool
  | BrokerOp.registryWrite => true
  | BrokerOp.callbackAppend => true
  | _ => false

/-- Is this operation a queue-level blocking operation (bounded put or
blocking get)? -/
def isQueueBlocking : BrokerOp → Bool
  | BrokerOp.queuePut => true
  | BrokerOp.queueGet => true
  | _ => false

/-- Events that do not depend on the database success oracles: the sink
calls themselves (attempts), the status log and the catch-all error log, as
opposed to the per-operation success/failure markers. -/
def isCore : Event → Bool
  | Event.alertDbError _ => false
  | Event.readingSaved => false
  | Event.readingDbError => false
  | _ => true

/-!
Helper lemmas about dictionary lookup and assignment.
-/

theorem getVal_append (a b : Msg) (k : String) :
    getVal (a ++ b) k = (getVal a k).or (getVal b k) := by
  unfold getVal
  rw [List.find?_append]
  cases List.find? (fun p => decide (p.1 = k)) a <;> simp

theorem getVal_none_of_not_mem {m : Msg} {k : String}
    (h : m.any (fun p => p.1 = k) = false) : getVal m k = none := by
  unfold getVal
  rw [List.find?_eq_none.mpr]
  · rfl
  · intro p hp
    have := List.any_eq_false.mp h p hp
    simpa using this

theorem getVal_setKey_self (m : Msg) (k : String) (v : Val) :
    getVal (setKey m k v) k = some v := by
  unfold setKey
  by_cases h : m.any (fun p => p.1 = k) = true
  · rw [if_pos h]
    induction m with
    | nil => simp at h
    | cons p ps ih =>
      by_cases hp : p.1 = k
      · simp [getVal, hp]
      · have hps : ps.any (fun p => p.1 = k) = true := by
          rcases List.any_eq_true.mp h with ⟨x, hx, hxk⟩
          rcases List.mem_cons.mp hx with hx1 | hx2
          · exact absurd (by simpa [hx1] using hxk) hp
          · exact List.any_eq_true.mpr ⟨x, hx2, hxk⟩
        simpa [getVal, hp] using ih hps
  · rw [if_neg h]
    rw [getVal_append, getVal_none_of_not_mem (Bool.eq_false_iff.mpr h)]
    simp [getVal]

theorem getVal_map_replace_ne (m : Msg) (k k' : String) (v : Val) (hne : k' ≠ k) :
    getVal (m.map (fun p => if p.1 = k then (k, v) else p)) k' = getVal m k' := by
  induction m with
  | nil => rfl
  | cons p ps ih =>
    by_cases hp : p.1 = k
    · have hpk' : ¬(p.1 = k') := by rw [hp]; exact fun hk => hne hk.symm
      have hkk' : ¬((k : String) = k') := fun hk => hne hk.symm
      simp only [List.map_cons, getVal, List.find?_cons, hp, if_pos]
      simp only [decide_eq_false hkk', decide_eq_false hpk', Bool.false_eq_true, if_false]
      simpa [getVal] using ih
    · simp only [List.map_cons, getVal, List.find?_cons, if_neg hp]
      by_cases hp' : p.1 = k'
      · simp [hp']
      · simp only [decide_eq_false hp', Bool.false_eq_true, if_false]
        simpa [getVal] using ih

theorem getVal_setKey_ne (m : Msg) (k k' : String) (v : Val) (hne : k' ≠ k) :
    getVal (setKey m k v) k' = getVal m k' := by
  unfold setKey
  by_cases h : m.any (fun p => p.1 = k) = true
  · rw [if_pos h]
    exact getVal_map_replace_ne m k k' v hne
  · rw [if_neg h]
    rw [getVal_append]
    have h1 : getVal [(k, v)] k' = none := by
      have hkk' : ¬((k : String) = k') := fun hk => hne hk.symm
      simp [getVal, hkk']
    rw [h1]
    cases getVal m k' <;> rfl

/-!
Unfolding lemmas for the rule loop, one per branch of the source.
-/

theorem runRules_nil (sensor_id timestamp : String) (values : Msg) (ao : List Bool) :
    runRules sensor_id timestamp values [] ao = ⟨[], [], 0, false⟩ := rfl

theorem runRules_cons_absent (sensor_id timestamp : String) {values : Msg}
    {r : AlertRule} (rs : List AlertRule) (ao : List Bool)
    (h : getVal values r.metric = none) :
    runRules sensor_id timestamp values (r :: rs) ao
      = runRules sensor_id timestamp values rs ao := by
  simp [runRules, h]

theorem runRules_cons_fired (sensor_id timestamp : String) {values : Msg}
    {r : AlertRule} {q : ℚ} (rs : List AlertRule) (ao : List Bool)
    (h : getVal values r.metric = some (Val.num q)) (hc : r.check q = true) :
    runRules sensor_id timestamp values (r :: rs) ao
      = ⟨create_alert (ao.headD true) sensor_id r.name r.severity r.metric q r.threshold
            timestamp ++ (runRules sensor_id timestamp values rs ao.tail).events,
         r.name :: (runRules sensor_id timestamp values rs ao.tail).triggered,
         (runRules sensor_id timestamp values rs ao.tail).alerts + 1,
         (runRules sensor_id timestamp values rs ao.tail).errored⟩ := by
  simp [runRules, h, hc]

theorem runRules_cons_not_fired (sensor_id timestamp : String) {values : Msg}
    {r : AlertRule} {q : ℚ} (rs : List AlertRule) (ao : List Bool)
    (h : getVal values r.metric = some (Val.num q)) (hc : r.check q = false) :
    runRules sensor_id timestamp values (r :: rs) ao
      = runRules sensor_id timestamp values rs ao := by
  simp [runRules, h, hc]

theorem runRules_cons_str (sensor_id timestamp : String) {values : Msg}
    {r : AlertRule} {s : String} (rs : List AlertRule) (ao : List Bool)
    (h : getVal values r.metric = some (Val.str s)) :
    runRules sensor_id timestamp values (r :: rs) ao
      = (if r.condition = ">" ∨ r.condition = "<" ∨ r.condition = ">=" ∨ r.condition = "<="
         then ⟨[], [], 0, true⟩
         else runRules sensor_id timestamp values rs ao) := by
  simp only [runRules, h]

theorem runRules_cons_dict (sensor_id timestamp : String) {values : Msg}
    {r : AlertRule} {d : List (String × Val)} (rs : List AlertRule) (ao : List Bool)
    (h : getVal values r.metric = some (Val.dict d)) :
    runRules sensor_id timestamp values (r :: rs) ao
      = (if r.condition = ">" ∨ r.condition = "<" ∨ r.condition = ">=" ∨ r.condition = "<="
         then ⟨[], [], 0, true⟩
         else runRules sensor_id timestamp values rs ao) := by
  simp only [runRules, h]

/-- The source comparator and the specification comparator coincide. -/
theorem check_eq_specCheck (r : AlertRule) (q : ℚ) :
    r.check q = specCheck r.condition q r.threshold := rfl

/-- With no comparison error, the rule loop triggers exactly the rules the
specification's comparator semantics select, in table order. -/
theorem runRules_triggered_filter (sensor_id timestamp : String) (values : Msg) :
    ∀ (rules : List AlertRule) (ao : List Bool),
      (runRules sensor_id timestamp values rules ao).errored = false →
      (runRules sensor_id timestamp values rules ao).triggered
        = (rules.filter (specFires values)).map AlertRule.name := by
  intro rules
  induction rules with
  | nil => intro ao _; simp [runRules_nil]
  | cons r rs ih =>
    intro ao h
    cases hg : getVal values r.metric with
    | none =>
      rw [runRules_cons_absent _ _ rs ao hg] at h ⊢
      have hf : specFires values r = false := by simp [specFires, hg]
      rw [List.filter_cons, if_neg (by simp [hf])]
      exact ih ao h
    | some v =>
      cases v with
      | num q =>
        by_cases hc : r.check q = true
        · rw [runRules_cons_fired _ _ rs ao hg hc] at h ⊢
          dsimp only at h ⊢
          have hf : specFires values r = true := by
            simp only [specFires, hg, ← check_eq_specCheck]
            exact hc
          rw [List.filter_cons, if_pos hf]
          rw [List.map_cons, ih ao.tail h]
        · have hc' : r.check q = false := by simpa using hc
          rw [runRules_cons_not_fired _ _ rs ao hg hc'] at h ⊢
          have hf : specFires values r = false := by
            simp only [specFires, hg, ← check_eq_specCheck]
            exact hc'
          rw [List.filter_cons, if_neg (by simp [hf])]
          exact ih ao h
      | str s =>
        rw [runRules_cons_str _ _ rs ao hg] at h ⊢
        by_cases hcond : r.condition = ">" ∨ r.condition = "<"
            ∨ r.condition = ">=" ∨ r.condition = "<="
        · rw [if_pos hcond] at h
          exact absurd h (by simp)
        · rw [if_neg hcond] at h ⊢
          have hf : specFires values r = false := by simp [specFires, hg]
          rw [List.filter_cons, if_neg (by simp [hf])]
          exact ih ao h
      | dict d =>
        rw [runRules_cons_dict _ _ rs ao hg] at h ⊢
        by_cases hcond : r.condition = ">" ∨ r.condition = "<"
            ∨ r.condition = ">=" ∨ r.condition = "<="
        · rw [if_pos hcond] at h
          exact absurd h (by simp)
        · rw [if_neg hcond] at h ⊢
          have hf : specFires values r = false := by simp [specFires, hg]
          rw [List.filter_cons, if_neg (by simp [hf])]
          exact ih ao h

/-- The events of one alert, stripped of the oracle-dependent failure
marker, are just the sink call, whatever the oracle said. -/
theorem create_alert_filter_core (ok : Bool) (sensor_id alert_type severity metric_name : String)
    (metric_value threshold : ℚ) (timestamp : String) :
    (create_alert ok sensor_id alert_type severity metric_name metric_value threshold
        timestamp).filter isCore
      = [Event.alertAttempt sensor_id alert_type severity metric_name metric_value threshold
          timestamp] := by
  cases ok <;> simp [create_alert, isCore]

/-- The rule loop's core events, triggered names, alert count and error flag
do not depend on the alert-database oracles. -/
theorem runRules_oracle (sensor_id timestamp : String) (values : Msg) :
    ∀ (rules : List AlertRule) (ao ao' : List Bool),
      ((runRules sensor_id timestamp values rules ao).events.filter isCore
        = (runRules sensor_id timestamp values rules ao').events.filter isCore)
      ∧ (runRules sensor_id timestamp values rules ao).triggered
          = (runRules sensor_id timestamp values rules ao').triggered
      ∧ (runRules sensor_id timestamp values rules ao).alerts
          = (runRules sensor_id timestamp values rules ao').alerts
      ∧ (runRules sensor_id timestamp values rules ao).errored
          = (runRules sensor_id timestamp values rules ao').errored := by
  intro rules
  induction rules with
  | nil => intro ao ao'; simp [runRules_nil]
  | cons r rs ih =>
    intro ao ao'
    cases hg : getVal values r.metric with
    | none =>
      rw [runRules_cons_absent _ _ rs ao hg, runRules_cons_absent _ _ rs ao' hg]
      exact ih ao ao'
    | some v =>
      cases v with
      | num q =>
        by_cases hc : r.check q = true
        · rw [runRules_cons_fired _ _ rs ao hg hc, runRules_cons_fired _ _ rs ao' hg hc]
          dsimp only
          rcases ih ao.tail ao'.tail with ⟨h1, h2, h3, h4⟩
          refine ⟨?_, by rw [h2], by rw [h3], h4⟩
          rw [List.filter_append, List.filter_append, h1,
            create_alert_filter_core, create_alert_filter_core]
        · have hc' : r.check q = false := by simpa using hc
          rw [runRules_cons_not_fired _ _ rs ao hg hc',
            runRules_cons_not_fired _ _ rs ao' hg hc']
          exact ih ao ao'
      | str s =>
        rw [runRules_cons_str _ _ rs ao hg, runRules_cons_str _ _ rs ao' hg]
        by_cases hcond : r.condition = ">" ∨ r.condition = "<"
            ∨ r.condition = ">=" ∨ r.condition = "<="
        · simp only [if_pos hcond]; simp
        · simp only [if_neg hcond]; exact ih ao ao'
      | dict d =>
        rw [runRules_cons_dict _ _ rs ao hg, runRules_cons_dict _ _ rs ao' hg]
        by_cases hcond : r.condition = ">" ∨ r.condition = "<"
            ∨ r.condition = ">=" ∨ r.condition = "<="
        · simp only [if_pos hcond]; simp
        · simp only [if_neg hcond]; exact ih ao ao'

/-- The rule loop only looks readings up through the metric keys of its
rules: values maps agreeing on those keys are evaluated identically. -/
theorem runRules_congr (sensor_id timestamp : String) {v1 v2 : Msg} :
    ∀ (rules : List AlertRule) (ao : List Bool),
      (∀ r ∈ rules, getVal v1 r.metric = getVal v2 r.metric) →
      runRules sensor_id timestamp v1 rules ao
        = runRules sensor_id timestamp v2 rules ao := by
  intro rules
  induction rules with
  | nil => intro ao _; rfl
  | cons r rs ih =>
    intro ao hagree
    have hr : getVal v1 r.metric = getVal v2 r.metric :=
      hagree r (List.mem_cons_self r rs)
    have hrs : ∀ x ∈ rs, getVal v1 x.metric = getVal v2 x.metric :=
      fun x hx => hagree x (List.mem_cons_of_mem r hx)
    cases hg : getVal v2 r.metric with
    | none =>
      rw [runRules_cons_absent _ _ rs ao (hr.trans hg),
        runRules_cons_absent _ _ rs ao hg]
      exact ih ao hrs
    | some v =>
      cases v with
      | num q =>
        by_cases hc : r.check q = true
        · rw [runRules_cons_fired _ _ rs ao (hr.trans hg) hc,
            runRules_cons_fired _ _ rs ao hg hc, ih ao.tail hrs]
        · have hc' : r.check q = false := by simpa using hc
          rw [runRules_cons_not_fired _ _ rs ao (hr.trans hg) hc',
            runRules_cons_not_fired _ _ rs ao hg hc']
          exact ih ao hrs
      | str s =>
        rw [runRules_cons_str _ _ rs ao (hr.trans hg),
          runRules_cons_str _ _ rs ao hg, ih ao hrs]
      | dict d =>
        rw [runRules_cons_dict _ _ rs ao (hr.trans hg),
          runRules_cons_dict _ _ rs ao hg, ih ao hrs]

/-- The reading save touches only the readings_saved counter. -/
theorem save_reading_fields (ro : Bool) (message : Msg) (st : KafkaStreamingConsumer) :
    (save_reading_to_database ro message st).1.topic = st.topic
    ∧ (save_reading_to_database ro message st).1.alert_rules = st.alert_rules
    ∧ (save_reading_to_database ro message st).1.processed_count = st.processed_count
    ∧ (save_reading_to_database ro message st).1.alert_count = st.alert_count := by
  cases hf : factOf message <;> cases ro <;> simp [save_reading_to_database, hf]

/-- The reading save's core events are exactly the sink call, whatever the
database oracle said and whether or not the fact row was buildable. -/
theorem save_reading_events_core (ro : Bool) (message : Msg) (st : KafkaStreamingConsumer) :
    (save_reading_to_database ro message st).2.filter isCore
      = [Event.readingAttempt (getStrD message "sensor_id" "unknown")] := by
  cases hf : factOf message <;> cases ro <;> simp [save_reading_to_database, hf, isCore]

/-- The reading-save sink call is always emitted. -/
theorem save_reading_attempted (ro : Bool) (message : Msg) (st : KafkaStreamingConsumer) :
    Event.readingAttempt (getStrD message "sensor_id" "unknown")
      ∈ (save_reading_to_database ro message st).2 := by
  cases hf : factOf message <;> cases ro <;> simp [save_reading_to_database, hf]

/-!
Claim theorems.
-/

/-- C2: for every reading, the rule loop triggers exactly the rules whose
comparator (strict for greater/less, inclusive for the -or-equal forms)
holds for the reading's value of the rule's metric, in rule-table order;
the reading with temperature 45 and wind speed 60 triggers exactly
HIGH_TEMP then HIGH_WIND, and the reading with temperature 45 and humidity
50 triggers exactly HIGH_TEMP, whose severity is CRITICAL. -/
theorem c2_evaluate_comparator_semantics :
    (∀ (sensor_id timestamp : String) (values : Msg) (rules : List AlertRule)
      (ao : List Bool),
      (runRules sensor_id timestamp values rules ao).errored = false →
      (runRules sensor_id timestamp values rules ao).triggered
        = (rules.filter (specFires values)).map AlertRule.name)
    ∧ (runRules "S" "t" [("temperature", Val.num 45), ("wind_speed", Val.num 60)]
        ALERT_RULES []).triggered = ["HIGH_TEMP", "HIGH_WIND"]
    ∧ (runRules "S" "t" [("temperature", Val.num 45), ("humidity", Val.num 50)]
        ALERT_RULES []).triggered = ["HIGH_TEMP"]
    ∧ (ALERT_RULES.filter
        (specFires [("temperature", Val.num 45), ("humidity", Val.num 50)])).map
          AlertRule.severity = ["CRITICAL"] :=
  ⟨runRules_triggered_filter, by decide, by decide, by decide⟩

/-- C2 witness: the comparator-semantics characterization applied to the
concrete reading with temperature 45 and wind speed 60. -/
theorem c2_witness :
    (runRules "S" "t" [("temperature", Val.num 45), ("wind_speed", Val.num 60)]
        ALERT_RULES []).triggered
      = ((ALERT_RULES.filter
          (specFires [("temperature", Val.num 45), ("wind_speed", Val.num 60)])).map
            AlertRule.name) :=
  c2_evaluate_comparator_semantics.1 "S" "t"
    [("temperature", Val.num 45), ("wind_speed", Val.num 60)] ALERT_RULES [] (by decide)

/-- C3: both consumers' rule tables equal the specification's fixed default
table of seven rules, in order; the table is wired at consumer startup and
processing a message never changes it. -/
theorem c3_rule_table_fixed :
    ALERT_RULES = specRuleTable
    ∧ streaming_consumer.ALERT_RULES = specRuleTable
    ∧ (∀ topic, (KafkaStreamingConsumer.init topic).alert_rules = ALERT_RULES)
    ∧ (∀ (ao : List Bool) (ro : Bool) (now : String) (message : Msg)
        (st : KafkaStreamingConsumer),
        ((process_message ao ro now message st).1).alert_rules = st.alert_rules) := by
  refine ⟨rfl, rfl, fun _ => rfl, ?_⟩
  intro ao ro now message st
  simp only [process_message]
  split
  · rfl
  · split
    · exact (save_reading_fields ro message _).2.1
    · exact (save_reading_fields ro message _).2.1

/-- C7: a rule whose metric key is absent from the reading's values is
skipped without any error: evaluating it contributes nothing and the
remaining rules are evaluated exactly as if the rule were not there. -/
theorem c7_missing_metric_skipped :
    ∀ (sensor_id timestamp : String) (values : Msg) (r : AlertRule)
      (rs : List AlertRule) (ao : List Bool),
      getVal values r.metric = none →
      runRules sensor_id timestamp values (r :: rs) ao
        = runRules sensor_id timestamp values rs ao := by
  intro sensor_id timestamp values r rs ao h
  exact runRules_cons_absent sensor_id timestamp rs ao h

/-- C7 witness: a reading with only humidity skips the HIGH_TEMP rule. -/
theorem c7_witness :
    runRules "S" "t" [("humidity", Val.num 5)]
        [⟨"HIGH_TEMP", "temperature", ">", 40, "CRITICAL"⟩] []
      = runRules "S" "t" [("humidity", Val.num 5)] [] [] :=
  c7_missing_metric_skipped "S" "t" [("humidity", Val.num 5)]
    ⟨"HIGH_TEMP", "temperature", ">", 40, "CRITICAL"⟩ [] [] rfl

/-- A lookup miss makes the string-with-default accessor return the default. -/
theorem getStrD_of_absent {message : Msg} {k : String} (d : String)
    (h : getVal message k = none) : getStrD message k d = d := by
  simp [getStrD, getStr, h]

/-- C1 counterexample: the message with only a temperature of 45 has no
sensor_id key, yet processing it does call the reading-persistence sink
(with sensor_id defaulted to unknown), so the message is not discarded. -/
theorem c1_counterexample :
    getVal [("temperature", Val.num 45)] "sensor_id" = none
    ∧ Event.readingAttempt "unknown"
        ∈ (process_message [] true "t0" [("temperature", Val.num 45)]
            (KafkaStreamingConsumer.init "sensor_data")).2 := by
  refine ⟨rfl, ?_⟩
  decide

/-- C1 (amended): a message lacking sensor_id is not discarded: the
consumer substitutes the sensor id unknown, counts the message as
processed, and attempts the reading save with sensor_id unknown (whenever
rule evaluation does not abort on a non-numeric metric); there is no
malformed-envelope check or log in the code. -/
theorem c1_amended_unknown_processed :
    ∀ (message : Msg) (st : KafkaStreamingConsumer) (now : String)
      (ao : List Bool) (ro : Bool),
      getVal message "sensor_id" = none →
      (runRules "unknown" (getStrD message "timestamp" now) (extractValues message)
          st.alert_rules ao).errored = false →
      (process_message ao ro now message st).1.processed_count = st.processed_count + 1
      ∧ Event.readingAttempt "unknown" ∈ (process_message ao ro now message st).2 := by
  intro message st now ao ro h herr
  have hsid : getStrD message "sensor_id" "unknown" = "unknown" :=
    getStrD_of_absent "unknown" h
  simp only [process_message, hsid]
  rw [if_neg (by simp [herr])]
  have hmem : Event.readingAttempt "unknown"
      ∈ (save_reading_to_database ro message
          {st with
            processed_count := st.processed_count + 1,
            alert_count := st.alert_count
              + (runRules "unknown" (getStrD message "timestamp" now)
                  (extractValues message) st.alert_rules ao).alerts}).2 := by
    have := save_reading_attempted ro message
      {st with
        processed_count := st.processed_count + 1,
        alert_count := st.alert_count
          + (runRules "unknown" (getStrD message "timestamp" now)
              (extractValues message) st.alert_rules ao).alerts}
    rwa [hsid] at this
  have hcount : ∀ st2 : KafkaStreamingConsumer,
      (save_reading_to_database ro message st2).1.processed_count
        = st2.processed_count :=
    fun st2 => (save_reading_fields ro message st2).2.2.1
  split
  · exact ⟨by rw [hcount], by simp only [List.mem_append]; left; right; exact hmem⟩
  · exact ⟨by rw [hcount], by simp only [List.mem_append]; right; exact hmem⟩

/-- C1 witness: the amended statement at a concrete message lacking
sensor_id (a humidity-only reading). -/
theorem c1_witness :
    (process_message [] true "t0" [("humidity", Val.num 50)]
        (KafkaStreamingConsumer.init "sensor_data")).1.processed_count = 0 + 1
    ∧ Event.readingAttempt "unknown"
        ∈ (process_message [] true "t0" [("humidity", Val.num 50)]
            (KafkaStreamingConsumer.init "sensor_data")).2 :=
  c1_amended_unknown_processed [("humidity", Val.num 50)]
    (KafkaStreamingConsumer.init "sensor_data") "t0" [] true rfl (by decide)

/-- C6: alert persistence and reading persistence are independent and
neither failure aborts processing: whatever the alert-database and
reading-database oracles do, processing one message emits the same sink
calls (alert attempts and the reading attempt), the same status log and the
same catch-all error log — only the success/failure markers change — and
the message is counted as processed either way. -/
theorem c6_persistence_independence :
    ∀ (message : Msg) (st : KafkaStreamingConsumer) (now : String)
      (ao ao' : List Bool) (ro ro' : Bool),
      ((process_message ao ro now message st).2.filter isCore
        = (process_message ao' ro' now message st).2.filter isCore)
      ∧ (process_message ao ro now message st).1.processed_count
          = (process_message ao' ro' now message st).1.processed_count := by
  intro message st now ao ao' ro ro'
  obtain ⟨h1, h2, h3, h4⟩ := runRules_oracle (getStrD message "sensor_id" "unknown")
    (getStrD message "timestamp" now) (extractValues message) st.alert_rules ao ao'
  simp only [process_message]
  by_cases herr : (runRules (getStrD message "sensor_id" "unknown")
      (getStrD message "timestamp" now) (extractValues message)
      st.alert_rules ao).errored = true
  · rw [if_pos herr, if_pos (h4 ▸ herr)]
    refine ⟨?_, rfl⟩
    rw [List.filter_append, List.filter_append, h1]
  · rw [if_neg herr, if_neg (fun hx => herr (h4 ▸ hx))]
    rw [h2, h3]
    have hp : ∀ (roX : Bool) (st2 : KafkaStreamingConsumer),
        (save_reading_to_database roX message st2).1.processed_count
          = st2.processed_count :=
      fun roX st2 => (save_reading_fields roX message st2).2.2.1
    rw [hp ro, hp ro']
    have hsc : ∀ roX : Bool,
        (save_reading_to_database roX message
            {st with
              processed_count := st.processed_count + 1,
              alert_count := st.alert_count
                + (runRules (getStrD message "sensor_id" "unknown")
                    (getStrD message "timestamp" now) (extractValues message)
                    st.alert_rules ao').alerts}).2.filter isCore
          = [Event.readingAttempt (getStrD message "sensor_id" "unknown")] :=
      fun roX => save_reading_events_core roX message _
    split
    · refine ⟨?_, ?_⟩
      · rw [List.filter_append, List.filter_append, List.filter_append,
          List.filter_append, h1, hsc ro, hsc ro']
      · dsimp only
        rw [hp ro, hp ro']
    · refine ⟨?_, ?_⟩
      · rw [List.filter_append, List.filter_append, h1, hsc ro, hsc ro']
      · dsimp only
        rw [hp ro, hp ro']

/-- C4 counterexample: for the same metric content (temperature 45) the
nested and flat shapes trigger the same rules, but the persistence mapping
writes temperature 45 for the nested shape and the default 0 for the flat
shape — the same metric values are not written regardless of shape. -/
theorem c4_counterexample :
    ((runRules "S1" "t"
        (extractValues [("sensor_id", Val.str "S1"),
          ("value", Val.dict [("temperature", Val.num 45)])]) ALERT_RULES []).triggered
      = (runRules "S1" "t"
          (extractValues [("sensor_id", Val.str "S1"), ("temperature", Val.num 45)])
          ALERT_RULES []).triggered)
    ∧ (factOf [("sensor_id", Val.str "S1"),
        ("value", Val.dict [("temperature", Val.num 45)])]).map
          FactWeatherReading.temperature = some (Val.num 45)
    ∧ (factOf [("sensor_id", Val.str "S1"), ("temperature", Val.num 45)]).map
          FactWeatherReading.temperature = some (Val.num 0)
    ∧ Val.num 45 ≠ Val.num 0 := by
  refine ⟨by decide, rfl, rfl, ?_⟩
  intro hEq
  injection hEq with hq
  exact absurd hq (by norm_num)

/-- C4 (amended): the two envelope shapes are equivalent for rule
evaluation — a nested message and the corresponding flat message trigger
the same rules — but not for persistence: the persistence mapping reads
metrics only from the nested value sub-map, so the flat shape's fact row
carries the default metric values instead of the message's. -/
theorem c4_amended_shape_equivalence :
    ∀ (base vals : Msg) (sensor_id timestamp : String) (ao : List Bool),
      getVal base "value" = none →
      getVal vals "value" = none →
      (∀ r ∈ ALERT_RULES, getVal base r.metric = none) →
      (runRules sensor_id timestamp
          (extractValues (base ++ [("value", Val.dict vals)])) ALERT_RULES ao
        = runRules sensor_id timestamp (extractValues (base ++ vals)) ALERT_RULES ao)
      ∧ (factOf (base ++ [("value", Val.dict vals)])).map metricPart
          = some (metricsFromValues vals)
      ∧ (factOf (base ++ vals)).map metricPart = some (metricsFromValues []) := by
  intro base vals sensor_id timestamp ao hb hv hbm
  have hnested : getVal (base ++ [("value", Val.dict vals)]) "value"
      = some (Val.dict vals) := by
    rw [getVal_append, hb]
    rfl
  have hflat : getVal (base ++ vals) "value" = none := by
    rw [getVal_append, hb, hv]
    rfl
  have hex1 : extractValues (base ++ [("value", Val.dict vals)]) = vals := by
    simp [extractValues, hnested]
  have hex2 : extractValues (base ++ vals) = base ++ vals := by
    simp [extractValues, hflat]
  refine ⟨?_, ?_, ?_⟩
  · rw [hex1, hex2]
    refine runRules_congr sensor_id timestamp ALERT_RULES ao ?_
    intro r hr
    rw [getVal_append, hbm r hr]
    cases getVal vals r.metric <;> rfl
  · simp [factOf, hnested, metricPart, metricsFromValues]
  · simp only [factOf, hflat, metricPart, metricsFromValues, Option.map_some]
    exact congrArg some rfl

/-- C4 witness: the amended shape statement at the concrete pair of
messages carrying temperature 45. -/
theorem c4_witness :
    (runRules "S1" "t"
        (extractValues ([("sensor_id", Val.str "S1")]
          ++ [("value", Val.dict [("temperature", Val.num 45)])])) ALERT_RULES []
      = runRules "S1" "t"
        (extractValues ([("sensor_id", Val.str "S1")]
          ++ [("temperature", Val.num 45)])) ALERT_RULES [])
    ∧ (factOf ([("sensor_id", Val.str "S1")]
        ++ [("value", Val.dict [("temperature", Val.num 45)])])).map metricPart
        = some (metricsFromValues [("temperature", Val.num 45)])
    ∧ (factOf ([("sensor_id", Val.str "S1")]
        ++ [("temperature", Val.num 45)])).map metricPart
        = some (metricsFromValues []) :=
  c4_amended_shape_equivalence [("sensor_id", Val.str "S1")]
    [("temperature", Val.num 45)] "S1" "t" [] rfl rfl
    (by intro r hr; fin_cases hr <;> rfl)

/-- Changing a topic's subscriber entry does not change the topic map. -/
theorem hasTopic_setSubscribers (b : KafkaBroker) (t t' : String) (n : Nat) :
    (b.setSubscribers t n).hasTopic t' = b.hasTopic t' := by
  unfold KafkaBroker.setSubscribers
  split <;> rfl

/-- After storing a queue under a name, the broker has that topic. -/
theorem hasTopic_setQueue_self (b : KafkaBroker) (t : String) (q : TopicQueue) :
    (b.setQueue t q).hasTopic t = true := by
  unfold KafkaBroker.setQueue KafkaBroker.hasTopic
  by_cases h : b.topics.any (fun p => p.1 = t) = true
  · rw [if_pos h]
    rcases List.any_eq_true.mp h with ⟨x, hx, hxk⟩
    refine List.any_eq_true.mpr ⟨(t, q), ?_, by simp⟩
    refine List.mem_map.mpr ⟨x, hx, ?_⟩
    simp only [of_decide_eq_true hxk, if_pos]
  · rw [if_neg h]
    simp

set_option maxRecDepth 10000 in
/-- C5: publishing to a topic that was never created deadlocks instead of
returning a boolean — `publish` holds the non-reentrant broker lock and
calls `create_topic`, which tries to acquire it again — while for an
existing topic the claimed behavior does hold: a fresh topic's queue has
capacity 1000, a publish onto a full queue of 1000 pending messages leaves
the broker unchanged and returns false without an exception, and a publish
with free capacity appends the stamped message and returns true. -/
theorem c5_publish_full_and_deadlock :
    emptyBroker.publish "sensor_data" (Val.dict []) "t0" = none
    ∧ emptyBroker.create_topic false "sensor_data"
        = some ⟨[("sensor_data", ⟨1000, []⟩)], [("sensor_data", 0)]⟩
    ∧ KafkaBroker.publish
        ⟨[("sensor_data", ⟨1000, List.replicate 1000 (Val.num 0)⟩)], []⟩
        "sensor_data" (Val.dict []) "t0"
      = some (⟨[("sensor_data", ⟨1000, List.replicate 1000 (Val.num 0)⟩)], []⟩,
          Val.dict [("kafka_timestamp", Val.str "t0")], false)
    ∧ KafkaBroker.publish ⟨[("sensor_data", ⟨1000, []⟩)], []⟩
        "sensor_data" (Val.dict []) "t0"
      = some (⟨[("sensor_data",
            ⟨1000, [Val.dict [("kafka_timestamp", Val.str "t0")]]⟩)], []⟩,
          Val.dict [("kafka_timestamp", Val.str "t0")], true) :=
  ⟨rfl, rfl, rfl, rfl⟩

/-- C8: create_topic is idempotent — once a call has succeeded, calling it
again with the same name returns the broker unchanged, so the existing
queue's pending messages and the subscriber registry are untouched. -/
theorem c8_create_topic_idempotent :
    ∀ (b b' : KafkaBroker) (topic_name : String),
      b.create_topic false topic_name = some b' →
      b'.create_topic false topic_name = some b' := by
  intro b b' t h
  simp only [KafkaBroker.create_topic, Bool.false_eq_true, if_false,
    Option.some.injEq] at h
  have hT : b'.hasTopic t = true := by
    by_cases hb : b.hasTopic t = true
    · rw [if_pos hb] at h
      rw [h] at hb
      exact hb
    · rw [if_neg hb] at h
      rw [← h, hasTopic_setSubscribers]
      exact hasTopic_setQueue_self b t ⟨1000, []⟩
  simp only [KafkaBroker.create_topic, Bool.false_eq_true, if_false,
    Option.some.injEq, hT, if_pos]

/-- C8 witness: a broker already owning the topic with a pending message
and two subscribers is returned unchanged by create_topic. -/
theorem c8_witness :
    KafkaBroker.create_topic
        ⟨[("sensor_data", ⟨1000, [Val.num 7]⟩)], [("sensor_data", 2)]⟩
        false "sensor_data"
      = some ⟨[("sensor_data", ⟨1000, [Val.num 7]⟩)], [("sensor_data", 2)]⟩ :=
  c8_create_topic_idempotent
    ⟨[("sensor_data", ⟨1000, [Val.num 7]⟩)], [("sensor_data", 2)]⟩
    ⟨[("sensor_data", ⟨1000, [Val.num 7]⟩)], [("sensor_data", 2)]⟩
    "sensor_data" rfl

/-- C10: every completing publish of a dict-shaped message hands back the
caller's dict with kafka_timestamp written (overwriting any existing
binding) — also when the result is false because the queue was full, in
which case the broker is unchanged — every other key of the dict is
untouched, the enqueued message (on success) is exactly the stamped dict,
and non-dict messages pass through unmodified. -/
theorem c10_publish_stamps_caller_message :
    (∀ (b b2 : KafkaBroker) (topic_name now : String) (m : Msg) (msg2 : Val) (ok : Bool),
      b.publish topic_name (Val.dict m) now = some (b2, msg2, ok) →
      msg2 = Val.dict (setKey m "kafka_timestamp" (Val.str now))
      ∧ getVal (setKey m "kafka_timestamp" (Val.str now)) "kafka_timestamp"
          = some (Val.str now)
      ∧ (∀ k, k ≠ "kafka_timestamp" →
          getVal (setKey m "kafka_timestamp" (Val.str now)) k = getVal m k)
      ∧ (ok = true →
          b2 = b.setQueue topic_name
            ⟨(b.getQueue topic_name).maxsize, (b.getQueue topic_name).items ++ [msg2]⟩)
      ∧ (ok = false → b2 = b))
    ∧ (∀ (b b2 : KafkaBroker) (topic_name now s : String) (v2 : Val) (ok : Bool),
      b.publish topic_name (Val.str s) now = some (b2, v2, ok) → v2 = Val.str s)
    ∧ (∀ (b b2 : KafkaBroker) (topic_name now : String) (q : ℚ) (v2 : Val) (ok : Bool),
      b.publish topic_name (Val.num q) now = some (b2, v2, ok) → v2 = Val.num q) := by
  refine ⟨?_, ?_, ?_⟩
  · intro b b2 topic_name now m msg2 ok h
    by_cases hT : b.hasTopic topic_name = true
    · simp only [KafkaBroker.publish, hT, if_pos, Option.bind_eq_bind,
        Option.some_bind] at h
      split at h
      · simp only [Option.some.injEq, Prod.mk.injEq] at h
        obtain ⟨hb2, hmsg2, hok⟩ := h
        subst hmsg2
        refine ⟨rfl, getVal_setKey_self m "kafka_timestamp" (Val.str now),
          fun k hk => getVal_setKey_ne m "kafka_timestamp" k (Val.str now) hk, ?_, ?_⟩
        · intro _
          exact hb2.symm
        · intro hfalse
          rw [hfalse] at hok
          exact absurd hok.symm (by simp)
      · simp only [Option.some.injEq, Prod.mk.injEq] at h
        obtain ⟨hb2, hmsg2, hok⟩ := h
        subst hmsg2
        refine ⟨rfl, getVal_setKey_self m "kafka_timestamp" (Val.str now),
          fun k hk => getVal_setKey_ne m "kafka_timestamp" k (Val.str now) hk, ?_, ?_⟩
        · intro htrue
          rw [htrue] at hok
          exact absurd hok.symm (by simp)
        · intro _
          exact hb2.symm
    · simp only [KafkaBroker.publish, hT, Bool.false_eq_true, if_false,
        KafkaBroker.create_topic, if_pos, Option.bind_eq_bind, Option.none_bind] at h
      exact Option.noConfusion h
  · intro b b2 topic_name now s v2 ok h
    by_cases hT : b.hasTopic topic_name = true
    · simp only [KafkaBroker.publish, hT, if_pos, Option.bind_eq_bind,
        Option.some_bind] at h
      split at h <;> simp only [Option.some.injEq, Prod.mk.injEq] at h <;>
        exact h.2.1.symm
    · simp only [KafkaBroker.publish, hT, Bool.false_eq_true, if_false,
        KafkaBroker.create_topic, if_pos, Option.bind_eq_bind, Option.none_bind] at h
      exact Option.noConfusion h
  · intro b b2 topic_name now q v2 ok h
    by_cases hT : b.hasTopic topic_name = true
    · simp only [KafkaBroker.publish, hT, if_pos, Option.bind_eq_bind,
        Option.some_bind] at h
      split at h <;> simp only [Option.some.injEq, Prod.mk.injEq] at h <;>
        exact h.2.1.symm
    · simp only [KafkaBroker.publish, hT, Bool.false_eq_true, if_false,
        KafkaBroker.create_topic, if_pos, Option.bind_eq_bind, Option.none_bind] at h
      exact Option.noConfusion h

/-- C10 witness: the stamping facts read off a concrete completing publish
of an empty dict onto an existing topic. -/
theorem c10_witness :
    Val.dict [("kafka_timestamp", Val.str "t9")]
        = Val.dict (setKey [] "kafka_timestamp" (Val.str "t9"))
    ∧ getVal (setKey [] "kafka_timestamp" (Val.str "t9")) "kafka_timestamp"
        = some (Val.str "t9") :=
  ⟨(c10_publish_stamps_caller_message.1 ⟨[("sensor_data", ⟨1000, []⟩)], []⟩
      ⟨[("sensor_data", ⟨1000, [Val.dict [("kafka_timestamp", Val.str "t9")]]⟩)], []⟩
      "sensor_data" "t9" [] (Val.dict [("kafka_timestamp", Val.str "t9")]) true rfl).1,
   (c10_publish_stamps_caller_message.1 ⟨[("sensor_data", ⟨1000, []⟩)], []⟩
      ⟨[("sensor_data", ⟨1000, [Val.dict [("kafka_timestamp", Val.str "t9")]]⟩)], []⟩
      "sensor_data" "t9" [] (Val.dict [("kafka_timestamp", Val.str "t9")]) true rfl).2.1⟩

/-- C9 counterexample: the bounded blocking put of publish runs while the
broker mutex is held, not outside it as claimed; and consume's defaultdict
access can insert a fresh queue into the topics registry without holding
the mutex, so not all registry mutations happen under it. -/
theorem c9_counterexample :
    (BrokerOp.queuePut, true) ∈ publishOps
    ∧ (BrokerOp.queuePut, false) ∉ publishOps
    ∧ (BrokerOp.registryWrite, false) ∈ consumeOps := by
  decide

/-- C9 (amended): the registry mutations performed by create_topic,
subscribe and publish happen under the broker mutex, and consume's blocking
get runs outside it; but the claimed discipline fails in both directions:
the bounded blocking put in publish runs while the mutex is held — so one
full queue does serialize publishes to all other topics behind the lock for
the duration of the put timeout — and consume, which takes no lock at all,
can insert a fresh queue into the topics registry (its defaultdict access
on an absent topic) without holding the mutex. -/
theorem c9_amended_lock_discipline :
    ((create_topicOps ++ subscribeOps ++ publishOps).all
      (fun p => !(isRegistryMutation p.1) || p.2)) = true
    ∧ (consumeOps.all (fun p => !p.2)) = true
    ∧ (BrokerOp.registryWrite, false) ∈ consumeOps
    ∧ (consumeOps.all (fun p => !(isQueueBlocking p.1) || !p.2)) = true
    ∧ (publishOps.all (fun p => !(isQueueBlocking p.1) || p.2)) = true := by
  decide
